import Mathlib

/-!
Verification of the analytics core of a personal-finance application.

The source is a Python/pandas pipeline.  We shallowly embed it:

* a pandas `DataFrame` of transactions becomes a `DFrame`: a list of
  `Txn` records together with a flag recording whether the optional
  `category` column is present in the schema (pandas distinguishes a
  missing column from a column of nulls, and two functions branch on it);
* money amounts become exact rationals (the Python floats carry currency
  amounts; no claim under study depends on binary-float artefacts);
* `round(x, n)` becomes exact rounding of a rational to `n` decimal
  places (`round2`, `round3`); Python's round-half-to-even at exact ties
  is immaterial to every property proved here, so Mathlib's `round` is
  used for the integer step;
* calendar dates become natural numbers ordered chronologically, and
  month periods become strings (pandas compares both by their natural
  order; ISO date/period strings compare lexicographically in the same
  order);
* `groupby` keeps pandas' defaults: rows whose key is null are dropped
  (`dropna=True`) and group keys are emitted in ascending sorted order
  (`sort=True`).
-/

namespace FinCopilot

/-- One transaction row of the pipeline's working DataFrame.
`date` is the calendar day of the timestamp (chronologically ordered),
`period` the derived month key, `category` is `none` where the column
holds a null. -/
structure Txn where
  date : Nat
  period : String
  amount : ℚ
  is_income : Bool
  category : Option String
  description : String
  source : Option String
  account_name : Option String
  deriving Repr, DecidableEq

/-- A transactions DataFrame: its rows plus whether the optional
`category` column exists in the schema.  When `hasCategoryCol = false`
the rows' `category` fields are all `none` (a well-formedness condition
stated where needed). -/
structure DFrame where
  hasCategoryCol : Bool
  rows : List Txn
  deriving Repr, DecidableEq

/-- Python `round(x, 2)` on an exact rational. -/
def round2 (q : ℚ) : ℚ := (round (q * 100) : ℤ) / 100

/-- Python `round(x, 3)` on an exact rational. -/
def round3 (q : ℚ) : ℚ := (round (q * 1000) : ℤ) / 1000

/-- Sum of the amounts of the income rows (`df.loc[df["is_income"], "amount"].sum()`). -/
def incomeSum (rows : List Txn) : ℚ :=
  ((rows.filter (fun t => t.is_income)).map (fun t => t.amount)).sum

/-- Sum of the amounts of the expense rows (`df.loc[~df["is_income"], "amount"].sum()`). -/
def expenseSum (rows : List Txn) : ℚ :=
  ((rows.filter (fun t => !t.is_income)).map (fun t => t.amount)).sum

/-- Result shape of `compute_basic_stats`. -/
structure Stats where
  total_income : ℚ
  total_expense : ℚ
  net : ℚ
  savings_rate : ℚ
  deriving Repr, DecidableEq

/-- `compute_basic_stats` (analyzer.py): income, expense, net = income − expense,
savings_rate = net/income when income > 0 else 0.0; money rounded to 2
decimals, the ratio to 3, at the output boundary. -/
def compute_basic_stats (rows : List Txn) : Stats :=
  let income := incomeSum rows
  let expense := expenseSum rows
  let net := income - expense
  let savings_rate := if 0 < income then net / income else 0
  { total_income := round2 income
    total_expense := round2 expense
    net := round2 net
    savings_rate := round3 savings_rate }

/-- The cashflow-health classifier at the end of `detect_patterns`
(analyzer.py): it reads the rounded `net` and `savings_rate` out of the
stats dict and applies the ordered thresholds. -/
def cashflow_flag (rows : List Txn) : String :=
  let stats := compute_basic_stats rows
  if stats.net < 0 then "critical"
  else if stats.savings_rate < 1/10 then "warning"
  else "ok"

/-- A one-row DataFrame with a single expense of 50, used as a concrete
input by several witnesses. -/
def oneExpense50 : List Txn :=
  [{ date := 1, period := "2025-01", amount := 50, is_income := false,
     category := some "Food", description := "x", source := none, account_name := none }]

theorem round2_zero : round2 0 = 0 := by
  simp [round2]

theorem round3_zero : round3 0 = 0 := by
  simp [round3]

/-- C7: `compute_basic_stats` computes `net` as exactly
`total_income − total_expense` before rounding (the reported `net` is the
rounding of that exact difference), and when there are zero income rows
the reported `savings_rate` is exactly 0. -/
theorem c7_basic_stats_net_and_zero_income (rows : List Txn) :
    (compute_basic_stats rows).net = round2 (incomeSum rows - expenseSum rows) ∧
    (rows.filter (fun t => t.is_income) = [] →
      (compute_basic_stats rows).savings_rate = 0) := by
  constructor
  · rfl
  · intro h
    have hinc : incomeSum rows = 0 := by simp [incomeSum, h]
    simp [compute_basic_stats, hinc, round3_zero]

/-- Witness for C7 at a concrete input with no income rows. -/
theorem c7_basic_stats_net_and_zero_income_witness :
    (compute_basic_stats oneExpense50).savings_rate = 0 :=
  (c7_basic_stats_net_and_zero_income oneExpense50).2 (by decide)

/-- C8: the cashflow flag is the ordered classifier on the reported stats:
negative net always yields "critical" (taking precedence over the
savings-rate check), otherwise savings rate below 0.10 yields "warning",
otherwise "ok". -/
theorem c8_cashflow_flag_ordered (rows : List Txn) :
    ((compute_basic_stats rows).net < 0 → cashflow_flag rows = "critical") ∧
    (0 ≤ (compute_basic_stats rows).net →
      (compute_basic_stats rows).savings_rate < 1/10 →
        cashflow_flag rows = "warning") ∧
    (0 ≤ (compute_basic_stats rows).net →
      1/10 ≤ (compute_basic_stats rows).savings_rate →
        cashflow_flag rows = "ok") := by
  refine ⟨fun h => ?_, fun h1 h2 => ?_, fun h1 h2 => ?_⟩
  · simp [cashflow_flag, h]
  · rw [cashflow_flag, if_neg (by exact not_lt.mpr h1), if_pos h2]
  · rw [cashflow_flag, if_neg (by exact not_lt.mpr h1), if_neg (by exact not_lt.mpr h2)]

/-- Witness for C8 at a concrete input with negative net. -/
theorem c8_cashflow_flag_ordered_witness :
    cashflow_flag oneExpense50 = "critical" :=
  (c8_cashflow_flag_ordered oneExpense50).1 (by
    norm_num [compute_basic_stats, oneExpense50, incomeSum, expenseSum, round2, round_eq])

/-! ### Category breakdown (`compute_category_breakdown`, analyzer.py) -/

/-- Expense rows of a DataFrame (`df[~df["is_income"]]`). -/
def expenseRows (df : DFrame) : List Txn := df.rows.filter (fun t => !t.is_income)

/-- Total amount of the rows of `exp` carrying category `c`
(the group sum of `groupby("category")["amount"].sum()` at key `c`). -/
def catSum (exp : List Txn) (c : String) : ℚ :=
  ((exp.filter (fun t => t.category == some c)).map (fun t => t.amount)).sum

/-- `true` when the row's category is one of the keys `K`. -/
def catInKeys (K : List String) (t : Txn) : Bool :=
  K.any (fun c => t.category == some c)

/-- The group keys of `exp.groupby("category")`: the distinct non-null
categories of `exp` (pandas drops rows with a null group key,
`dropna=True`). -/
def catKeys (exp : List Txn) : List String :=
  (exp.filterMap (fun t => t.category)).dedup

/-- The exact per-category totals of `compute_category_breakdown`, sorted
descending by total (`.sort_values(ascending=False)`); the function
rounds these at entry construction. -/
def breakdownRawEntries (df : DFrame) : List (String × ℚ) :=
  if df.hasCategoryCol = false then []
  else
    let exp := expenseRows df
    if exp = [] then []
    else ((catKeys exp).map (fun c => (c, catSum exp c))).insertionSort
      (fun a b => b.2 ≤ a.2)

/-- One entry of the category-breakdown result. -/
structure CatEntry where
  category : String
  total_spend : ℚ
  deriving Repr, DecidableEq

/-- `compute_category_breakdown` (analyzer.py): empty when the `category`
column is absent or there are no expenses; otherwise the per-category
expense totals, descending, each rounded to 2 decimals. -/
def compute_category_breakdown (df : DFrame) : List CatEntry :=
  (breakdownRawEntries df).map (fun p => { category := p.1, total_spend := round2 p.2 })

theorem sum_filter_catInKeys_cons (c : String) (K : List String) (hc : c ∉ K)
    (exp : List Txn) :
    ((exp.filter (catInKeys (c :: K))).map (fun t => t.amount)).sum =
      catSum exp c + ((exp.filter (catInKeys K)).map (fun t => t.amount)).sum := by
  induction exp with
  | nil => simp [catSum]
  | cons t l ih =>
    unfold catSum at ih ⊢
    by_cases h : t.category = some c
    · have h1 : catInKeys (c :: K) t = true := by simp [catInKeys, h]
      have h2 : catInKeys K t = false := by
        simp only [catInKeys, h, List.any_eq_false]
        intro x hx
        simp only [beq_iff_eq, Option.some.injEq]
        exact fun hxc => hc (hxc ▸ hx)
      have h3 : (t.category == some c) = true := by simp [h]
      simp only [List.filter_cons, h1, h2, h3]
      simp only [Bool.false_eq_true, if_false, if_true]
      simp only [List.map_cons, List.sum_cons]
      rw [ih]
      ring
    · have h3 : (t.category == some c) = false := by simpa using h
      have h1 : catInKeys (c :: K) t = catInKeys K t := by
        simp [catInKeys, List.any_cons, h3]
      by_cases h2 : catInKeys K t
      · simp only [List.filter_cons, h1, h2, h3]
        simp only [Bool.false_eq_true, if_false, if_true]
        simp only [List.map_cons, List.sum_cons]
        rw [ih]
        ring
      · have h2' : catInKeys K t = false := by simpa using h2
        simp only [List.filter_cons, h1, h2', h3]
        simp only [Bool.false_eq_true, if_false]
        exact ih

theorem sum_map_catSum (K : List String) (exp : List Txn) (hK : K.Nodup) :
    (K.map (fun c => catSum exp c)).sum =
      ((exp.filter (catInKeys K)).map (fun t => t.amount)).sum := by
  induction K with
  | nil =>
    have hf : exp.filter (catInKeys []) = [] := by
      have he : catInKeys [] = fun _ : Txn => false := by funext t; rfl
      simp [he]
    simp [hf]
  | cons c K ih =>
    rcases List.nodup_cons.mp hK with ⟨hc, hK'⟩
    rw [List.map_cons, List.sum_cons, ih hK', sum_filter_catInKeys_cons c K hc exp]

theorem filter_catInKeys_catKeys (exp : List Txn) :
    exp.filter (catInKeys (catKeys exp)) =
      exp.filter (fun t => t.category.isSome) := by
  apply List.filter_congr
  intro t ht
  cases h : t.category with
  | none => simp [catInKeys, h]
  | some c =>
    simp only [catInKeys, h, Option.isSome_some, List.any_eq_true, beq_iff_eq,
      Option.some.injEq, eq_iff_iff, iff_true]
    exact ⟨c, List.mem_dedup.mpr (List.mem_filterMap.mpr ⟨t, ht, h⟩), rfl⟩

/-- A DataFrame holding a single expense of 100 whose category is null:
the breakdown silently drops it. -/
def uncategorizedExpenseDf : DFrame :=
  { hasCategoryCol := true,
    rows := [{ date := 1, period := "2025-01", amount := 100, is_income := false,
               category := none, description := "misc", source := none,
               account_name := none }] }

/-- C1 counterexample: on a set holding one expense of 100 with a null
category, the breakdown entries sum to 0 while `compute_basic_stats`
reports a `total_expense` of 100 — the uncategorized expense is silently
dropped, not grouped under a sentinel key. -/
theorem c1_counterexample :
    ((compute_category_breakdown uncategorizedExpenseDf).map
        (fun e => e.total_spend)).sum ≠
      (compute_basic_stats uncategorizedExpenseDf.rows).total_expense := by
  norm_num [compute_category_breakdown, breakdownRawEntries, uncategorizedExpenseDf,
    expenseRows, catKeys, compute_basic_stats, incomeSum, expenseSum, round2, round_eq]

/-- C1 amended: the breakdown entries form an exhaustive partition of the
expense transactions *that carry a category*: the sum of the entries'
exact (pre-rounding) totals equals the exact total expense restricted to
expense rows whose category is non-null.  Expense rows with a null
category are silently dropped by `groupby` rather than grouped under a
sentinel key, so the entry totals fall short of `total_expense` by
exactly the uncategorized spend. -/
theorem c1_breakdown_partitions_categorized_expenses (df : DFrame)
    (h : df.hasCategoryCol = true) :
    ((breakdownRawEntries df).map (fun p => p.2)).sum =
      (((expenseRows df).filter (fun t => t.category.isSome)).map
        (fun t => t.amount)).sum := by
  unfold breakdownRawEntries
  rw [if_neg (by simp [h])]
  by_cases hexp : expenseRows df = []
  · simp [hexp]
  · rw [if_neg hexp]
    have perm := List.perm_insertionSort (fun a b : String × ℚ => b.2 ≤ a.2)
      ((catKeys (expenseRows df)).map (fun c => (c, catSum (expenseRows df) c)))
    rw [(perm.map (fun p : String × ℚ => p.2)).sum_eq, List.map_map]
    have hcomp : ((fun p : String × ℚ => p.2) ∘ fun c => (c, catSum (expenseRows df) c)) =
        fun c => catSum (expenseRows df) c := rfl
    have hnd : (catKeys (expenseRows df)).Nodup := List.nodup_dedup _
    rw [hcomp, sum_map_catSum _ _ hnd, filter_catInKeys_catKeys]

/-- Witness for C1's amended theorem at a concrete categorized input. -/
theorem c1_breakdown_partitions_categorized_expenses_witness :
    ((breakdownRawEntries { hasCategoryCol := true, rows := oneExpense50 }).map
        (fun p => p.2)).sum =
      (((expenseRows { hasCategoryCol := true, rows := oneExpense50 }).filter
          (fun t => t.category.isSome)).map (fun t => t.amount)).sum :=
  c1_breakdown_partitions_categorized_expenses
    { hasCategoryCol := true, rows := oneExpense50 } rfl

/-! ### Keyword categoriser (categorizer.py)

`Txn.description` models the already-string-valued `description` column:
the service layer's `str(...)` coercion renders a null description as the
literal string "None", which contains no keyword, so representing the
column as `String` is faithful for every property studied here. -/

/-- Lower-case a string (`str.lower()` over the ASCII texts involved). -/
def lowerStr (s : String) : String := String.mk (s.data.map Char.toLower)

/-- `needle in hay` for Python strings (substring containment). -/
def strContains (hay needle : String) : Bool := decide (needle.data <:+: hay.data)

/-- `KEYWORD_CATEGORY_MAP`: a fixed table of keyword-to-category pairs in
declaration order (a Python dict preserves insertion order). -/
def KEYWORD_CATEGORY_MAP : List (String × String) :=
  [("zomato", "Food"), ("swiggy", "Food"), ("blinkit", "Food"),
   ("instamart", "Food"), ("bigbasket", "Food"), ("starbucks", "Food"),
   ("cafe", "Food"), ("restaurant", "Food"),
   ("uber", "Transport"), ("ola", "Transport"), ("rapido", "Transport"),
   ("metro", "Transport"), ("cab", "Transport"), ("fuel", "Transport"),
   ("petrol", "Transport"), ("diesel", "Transport"),
   ("netflix", "Subscriptions"), ("spotify", "Subscriptions"),
   ("hotstar", "Subscriptions"), ("disney", "Subscriptions"),
   ("prime", "Subscriptions"), ("youtube", "Subscriptions"),
   ("apple music", "Subscriptions"),
   ("amazon", "Shopping"), ("flipkart", "Shopping"), ("myntra", "Shopping"),
   ("ajio", "Shopping"), ("h&m", "Shopping"), ("zara", "Shopping"),
   ("nykaa", "Shopping"),
   ("rent", "Housing"), ("landlord", "Housing"), ("maintenance", "Housing"),
   ("society", "Housing"),
   ("salary", "Salary"), ("salaried", "Salary"), ("stipend", "Salary"),
   ("freelance", "Side Income"), ("consulting", "Side Income"),
   ("bonus", "Bonus"),
   ("fee", "Fees & Charges"), ("charges", "Fees & Charges"),
   ("penalty", "Fees & Charges"), ("fine", "Fees & Charges"),
   ("interest", "Fees & Charges")]

/-- The search text of `guess_category`: lower-cased description, source
and account name (absent fields skipped), joined by single spaces. -/
def joinedText (description : String) (source account_name : Option String) : String :=
  String.intercalate " "
    (([some description, source, account_name].filterMap id).map lowerStr)

/-- `guess_category` (categorizer.py): the category of the first table
entry (in declaration order) whose keyword occurs in the search text,
else `None`. -/
def guess_category (description : String) (source account_name : Option String) :
    Option String :=
  (KEYWORD_CATEGORY_MAP.find?
    (fun p => strContains (joinedText description source account_name) p.1)).map
      (fun p => p.2)

/-- The mask test of `apply_auto_categories_to_df`: category cell is null
or blank after stripping. -/
def isMissingCategory (c : Option String) : Bool :=
  c.isNone || (c.getD "None").trim == ""

/-- `_categorise_row` (categorizer.py): the value written back into a
masked row — the guess when there is one, else the existing value. -/
def categoriseRow (t : Txn) : Txn :=
  if isMissingCategory t.category then
    { t with category :=
        match guess_category t.description t.source t.account_name with
        | some c => some c
        | none => t.category }
  else t

/-- `apply_auto_categories_to_df` (categorizer.py), with the caller's
aliasing made explicit.  The first component is the caller's DataFrame
*after* the call, the second the returned DataFrame.  The source adds the
`category` column to the caller's frame (`df["category"] = None`) before
taking the working copy (`df = df.copy()`), so a caller whose frame lacks
the column sees its column set change. -/
def apply_auto_categories_to_df (df : DFrame) : DFrame × DFrame :=
  let df0 : DFrame :=
    if df.hasCategoryCol then df else { df with hasCategoryCol := true }
  (df0, { hasCategoryCol := true, rows := df0.rows.map categoriseRow })

/-- A caller's DataFrame lacking the `category` column (its rows hold no
category values). -/
def noCatColDf : DFrame :=
  { hasCategoryCol := false,
    rows := [{ date := 3, period := "2025-02", amount := 5, is_income := false,
               category := none, description := "coffee", source := none,
               account_name := none }] }

/-- C6: evaluating `apply_auto_categories_to_df` on a caller DataFrame
without a `category` column shows the caller's frame is mutated: its
column set gains `category`, contradicting the no-mutation contract (the
working copy is taken only after the column insertion). -/
theorem c6_apply_auto_categories_mutates_caller :
    (apply_auto_categories_to_df noCatColDf).1.hasCategoryCol = true ∧
    noCatColDf.hasCategoryCol = false ∧
    (apply_auto_categories_to_df noCatColDf).1 ≠ noCatColDf := by
  refine ⟨rfl, rfl, fun hEq => ?_⟩
  have hflag := congrArg DFrame.hasCategoryCol hEq
  simp [apply_auto_categories_to_df, noCatColDf] at hflag

/-! ### Pattern detector (`detect_patterns`, analyzer.py) -/

/-- The expense rows of a transaction list (`df[~df["is_income"]]`). -/
def expenseOnly (rows : List Txn) : List Txn := rows.filter (fun t => !t.is_income)

/-- The distinct calendar dates of `exp`, ascending — the group keys of
`groupby("date")` (pandas emits keys sorted, and dates sort
chronologically). -/
def expenseDates (exp : List Txn) : List Nat :=
  ((exp.map (fun t => t.date)).dedup).insertionSort (· ≤ ·)

/-- Total expense amount of `exp` on day `d`. -/
def daySum (exp : List Txn) (d : Nat) : ℚ :=
  ((exp.filter (fun t => t.date == d)).map (fun t => t.amount)).sum

/-- The per-day expense totals, in date order (`daily` in the source). -/
def dailyTotals (exp : List Txn) : List ℚ :=
  (expenseDates exp).map (fun d => daySum exp d)

/-- `pandas.Series.median`: middle element of a sorted copy for odd
length, mean of the two middle elements for even length (0 on the empty
series, which the source guards separately). -/
def medianQ (l : List ℚ) : ℚ :=
  if l.length = 0 then 0
  else if l.length % 2 = 1 then (l.insertionSort (· ≤ ·)).getD (l.length / 2) 0
  else ((l.insertionSort (· ≤ ·)).getD (l.length / 2 - 1) 0 +
    (l.insertionSort (· ≤ ·)).getD (l.length / 2) 0) / 2

/-- The impulse-spike result shape (`extra_spend` exact here; the final
dict rounds it). -/
structure SpikesOut where
  days : List Nat
  extra_spend : ℚ
  deriving Repr, DecidableEq

/-- The impulse-spike sub-detection of `detect_patterns`: days whose
expense total strictly exceeds 1.5 × the median daily total, reported in
date order, with the spend above the median summed over those days;
nothing is flagged when there are no expenses or the median is not
positive. -/
def impulse_spikes (rows : List Txn) : SpikesOut :=
  let exp := expenseOnly rows
  if exp = [] then { days := [], extra_spend := 0 }
  else
    let med := medianQ (dailyTotals exp)
    if 0 < med then
      let high := (expenseDates exp).filter (fun d => decide (3/2 * med < daySum exp d))
      { days := high, extra_spend := (high.map (fun d => daySum exp d - med)).sum }
    else { days := [], extra_spend := 0 }

/-- A count-and-total sub-result of `detect_patterns`. -/
structure CountTotal where
  count : Nat
  total : ℚ
  deriving Repr, DecidableEq

/-- The high-fee mask: expense whose lower-cased description contains one
of the five fee substrings. -/
def feesMask (t : Txn) : Bool :=
  (strContains (lowerStr t.description) "fee"
    || strContains (lowerStr t.description) "charge"
    || strContains (lowerStr t.description) "penalty"
    || strContains (lowerStr t.description) "fine"
    || strContains (lowerStr t.description) "interest") && !t.is_income

/-- The subscription mask: expense whose category (stringified, so null
prints as "None") lower-cases to "subscriptions", or whose description
contains "subscription". -/
def subsMask (t : Txn) : Bool :=
  (lowerStr (t.category.getD "None") == "subscriptions"
    || strContains (lowerStr t.description) "subscription") && !t.is_income

/-- The fixed-shape result of `detect_patterns`. -/
structure PatternsOut where
  high_fees : CountTotal
  impulse_spikes : SpikesOut
  subscriptions : CountTotal
  cashflow_flag : String
  deriving Repr, DecidableEq

/-- `detect_patterns` (analyzer.py): the four sub-detections assembled
into the result dict, money totals rounded to 2 decimals at the
boundary. -/
def detect_patterns (rows : List Txn) : PatternsOut :=
  { high_fees :=
      { count := (rows.filter feesMask).length
        total := round2 (((rows.filter feesMask).map (fun t => t.amount)).sum) }
    impulse_spikes :=
      { days := (impulse_spikes rows).days
        extra_spend := round2 (impulse_spikes rows).extra_spend }
    subscriptions :=
      { count := (rows.filter subsMask).length
        total := round2 (((rows.filter subsMask).map (fun t => t.amount)).sum) }
    cashflow_flag := cashflow_flag rows }

theorem getD_nonneg (l : List ℚ) (h : ∀ x ∈ l, 0 ≤ x) (n : Nat) :
    0 ≤ l.getD n 0 := by
  rw [List.getD_eq_getElem?_getD]
  cases hg : l[n]? with
  | none => simp
  | some x =>
    have hx : x ∈ l := by
      have := List.getElem?_eq_some_iff.mp hg
      rcases this with ⟨hlt, hEq⟩
      exact hEq ▸ List.getElem_mem hlt
    simpa using h x hx

theorem medianQ_nonneg (l : List ℚ) (h : ∀ x ∈ l, 0 ≤ x) : 0 ≤ medianQ l := by
  have hs : ∀ x ∈ l.insertionSort (· ≤ ·), 0 ≤ x := fun x hx =>
    h x ((List.perm_insertionSort (· ≤ ·) l).mem_iff.mp hx)
  unfold medianQ
  split
  · exact le_refl 0
  · split
    · exact getD_nonneg _ hs _
    · have h1 := getD_nonneg _ hs (l.length / 2 - 1)
      have h2 := getD_nonneg _ hs (l.length / 2)
      positivity

theorem daySum_nonneg (exp : List Txn) (h : ∀ t ∈ exp, 0 ≤ t.amount) (d : Nat) :
    0 ≤ daySum exp d := by
  apply List.sum_nonneg
  intro x hx
  rcases List.mem_map.mp hx with ⟨t, ht, hEq⟩
  exact hEq ▸ h t (List.mem_of_mem_filter ht)

theorem expenseDates_sorted_lt (exp : List Txn) :
    List.Sorted (· < ·) (expenseDates exp) := by
  have hsorted : List.Sorted (· ≤ ·) (expenseDates exp) :=
    List.sorted_insertionSort (· ≤ ·) _
  have hnodup : (expenseDates exp).Nodup :=
    ((List.perm_insertionSort (· ≤ ·) _).nodup_iff).mpr (List.nodup_dedup _)
  have := List.Pairwise.and hsorted hnodup
  exact this.imp (fun h => lt_of_le_of_ne h.1 h.2)

/-- C3: writing `med` for the median of the per-day expense totals over
the days that appear: the reported spike-day list is always
chronologically sorted; when `med` is 0 nothing is reported; otherwise
(the amounts being non-negative, `med` is then positive and the source's
`median > 0` branch runs) the reported days are exactly the days whose
total strictly exceeds 1.5 × `med`, in date order, and the exact
extra spend is the sum over those days of (day total − `med`); the
`detect_patterns` dict carries this sub-result with `extra_spend`
rounded. -/
theorem c3_impulse_spikes_threshold (rows : List Txn)
    (h : ∀ t ∈ rows, 0 ≤ t.amount) :
    List.Sorted (· < ·) (impulse_spikes rows).days ∧
    (medianQ (dailyTotals (expenseOnly rows)) = 0 →
      (impulse_spikes rows).days = [] ∧ (impulse_spikes rows).extra_spend = 0) ∧
    (medianQ (dailyTotals (expenseOnly rows)) ≠ 0 →
      ((impulse_spikes rows).days =
        (expenseDates (expenseOnly rows)).filter
          (fun d => decide (3/2 * medianQ (dailyTotals (expenseOnly rows)) <
            daySum (expenseOnly rows) d)) ∧
      (∀ d : Nat, d ∈ (impulse_spikes rows).days ↔
        d ∈ expenseDates (expenseOnly rows) ∧
          3/2 * medianQ (dailyTotals (expenseOnly rows)) <
            daySum (expenseOnly rows) d) ∧
      (impulse_spikes rows).extra_spend =
        (((impulse_spikes rows).days).map
          (fun d => daySum (expenseOnly rows) d -
            medianQ (dailyTotals (expenseOnly rows)))).sum)) ∧
    (detect_patterns rows).impulse_spikes =
      { days := (impulse_spikes rows).days
        extra_spend := round2 (impulse_spikes rows).extra_spend } := by
  have hexpamt : ∀ t ∈ expenseOnly rows, 0 ≤ t.amount := fun t ht =>
    h t (List.mem_of_mem_filter ht)
  have hdaily : ∀ x ∈ dailyTotals (expenseOnly rows), 0 ≤ x := by
    intro x hx
    rcases List.mem_map.mp hx with ⟨d, _, hEq⟩
    exact hEq ▸ daySum_nonneg _ hexpamt d
  have hmednn : 0 ≤ medianQ (dailyTotals (expenseOnly rows)) :=
    medianQ_nonneg _ hdaily
  refine ⟨?_, ?_, ?_, rfl⟩
  · by_cases hE : expenseOnly rows = []
    · simp [impulse_spikes, hE]
    · by_cases hM : 0 < medianQ (dailyTotals (expenseOnly rows))
      · have : (impulse_spikes rows).days =
            (expenseDates (expenseOnly rows)).filter
              (fun d => decide (3/2 * medianQ (dailyTotals (expenseOnly rows)) <
                daySum (expenseOnly rows) d)) := by
          simp [impulse_spikes, hE, hM]
        rw [this]
        exact (expenseDates_sorted_lt (expenseOnly rows)).sublist
          (List.filter_sublist _)
      · simp [impulse_spikes, hE, hM]
  · intro hmed
    by_cases hE : expenseOnly rows = []
    · simp [impulse_spikes, hE]
    · have : ¬ 0 < medianQ (dailyTotals (expenseOnly rows)) := by
        rw [hmed]; exact lt_irrefl 0
      simp [impulse_spikes, hE, this]
  · intro hmed
    have hpos : 0 < medianQ (dailyTotals (expenseOnly rows)) :=
      lt_of_le_of_ne hmednn (Ne.symm hmed)
    have hE : expenseOnly rows ≠ [] := by
      intro hE
      apply hmed
      rw [hE]
      simp [dailyTotals, expenseDates, medianQ]
    refine ⟨by simp [impulse_spikes, hE, hpos], ?_, by simp [impulse_spikes, hE, hpos]⟩
    intro d
    have hdays : (impulse_spikes rows).days =
        (expenseDates (expenseOnly rows)).filter
          (fun d => decide (3/2 * medianQ (dailyTotals (expenseOnly rows)) <
            daySum (expenseOnly rows) d)) := by
      simp [impulse_spikes, hE, hpos]
    rw [hdays, List.mem_filter]
    simp

/-- The spec's worked example: four expense days with totals
100, 100, 100, 1000. -/
def spikeRows : List Txn :=
  [{ date := 1, period := "2025-01", amount := 100, is_income := false,
     category := none, description := "a", source := none, account_name := none },
   { date := 2, period := "2025-01", amount := 100, is_income := false,
     category := none, description := "b", source := none, account_name := none },
   { date := 3, period := "2025-01", amount := 100, is_income := false,
     category := none, description := "c", source := none, account_name := none },
   { date := 4, period := "2025-01", amount := 1000, is_income := false,
     category := none, description := "d", source := none, account_name := none }]

/-- Witness for C3: on daily totals [100, 100, 100, 1000] the median is
100, the threshold 150, exactly the 1000-day flags and the extra spend is
900. -/
theorem c3_impulse_spikes_threshold_witness :
    (impulse_spikes spikeRows).days = [4] ∧
    (impulse_spikes spikeRows).extra_spend = 900 := by
  obtain ⟨-, -, h3, -⟩ := c3_impulse_spikes_threshold spikeRows
    (by intro t ht; fin_cases ht <;> norm_num)
  have hmed : medianQ (dailyTotals (expenseOnly spikeRows)) = 100 := by
    norm_num [medianQ, dailyTotals, expenseOnly, expenseDates, daySum, spikeRows,
      List.insertionSort, List.orderedInsert, List.dedup_cons_of_not_mem,
      List.dedup_cons_of_mem]
  obtain ⟨hd, -, he⟩ := h3 (by rw [hmed]; norm_num)
  have hdates : expenseDates (expenseOnly spikeRows) = [1, 2, 3, 4] := by
    norm_num [expenseOnly, expenseDates, spikeRows, List.insertionSort,
      List.orderedInsert, List.dedup_cons_of_not_mem, List.dedup_cons_of_mem]
  have hdays : (impulse_spikes spikeRows).days = [4] := by
    rw [hd, hmed, hdates]
    norm_num [daySum, expenseOnly, spikeRows]
  refine ⟨hdays, ?_⟩
  rw [he, hdays, hmed]
  norm_num [daySum, expenseOnly, spikeRows]

/-- A transaction whose text matches two keywords: `uber` (earlier in the
text) and `zomato` (earlier in the table). -/
def uberZomatoTxn : Txn :=
  { date := 5, period := "2025-03", amount := 250, is_income := false,
    category := none, description := "Uber Zomato combo", source := none,
    account_name := none }

/-- A DataFrame holding `uberZomatoTxn`. -/
def uberZomatoDf : DFrame := { hasCategoryCol := true, rows := [uberZomatoTxn] }

/-- C9: on a DataFrame that has the `category` column, the resolver leaves
the caller's frame untouched and maps `categoriseRow` over the rows; a row
whose category is non-blank is returned completely unchanged; a row whose
category is null/blank receives the category of the *first* table entry
(in declaration order) whose keyword occurs in the lower-cased
space-joined description/source/account-name text, and keeps its existing
category when no keyword matches. -/
theorem c9_resolver_no_overwrite_first_match (df : DFrame)
    (hcol : df.hasCategoryCol = true) :
    (apply_auto_categories_to_df df).1 = df ∧
    (apply_auto_categories_to_df df).2.rows = df.rows.map categoriseRow ∧
    (∀ t : Txn, isMissingCategory t.category = false → categoriseRow t = t) ∧
    (∀ t : Txn, isMissingCategory t.category = true →
      (categoriseRow t).category =
        match KEYWORD_CATEGORY_MAP.find?
            (fun p => strContains (joinedText t.description t.source t.account_name) p.1) with
        | some p => some p.2
        | none => t.category) := by
  refine ⟨by simp [apply_auto_categories_to_df, hcol],
          by simp [apply_auto_categories_to_df, hcol],
          fun t h => by simp [categoriseRow, h],
          fun t h => ?_⟩
  simp only [categoriseRow, h, if_true, guess_category]
  cases hf : KEYWORD_CATEGORY_MAP.find?
      (fun p => strContains (joinedText t.description t.source t.account_name) p.1) with
  | none => simp [hf]
  | some p => simp [hf]

/-- Witness for C9: applies the theorem to a concrete DataFrame, and checks
concretely that the row matching both `uber` and `zomato` resolves to
`Food` — the category of the first matching table entry, not of the
keyword occurring first in the text. -/
theorem c9_resolver_no_overwrite_first_match_witness :
    ((apply_auto_categories_to_df uberZomatoDf).2.rows =
      uberZomatoDf.rows.map categoriseRow) ∧
    (categoriseRow uberZomatoTxn).category = some "Food" :=
  ⟨(c9_resolver_no_overwrite_first_match uberZomatoDf rfl).2.1, by decide⟩

/-! ### Action recommender (`recommend_actions_for_next_month`, actions.py)

The recommendation strings are modelled as tagged templates: every rule
in the source appends a distinct f-string template (with its numeric or
category arguments interpolated), and each rule fires at most once per
run, so deduplication by exact text coincides with equality of this
tagged type. -/

/-- The action messages, one constructor per template string of the
source, carrying the interpolated arguments. -/
inductive ActionMsg where
  | savingsAuto
  | savingsRaise
  | savingsProtect
  | feeReview (count : Nat) (total : ℚ)
  | spikePlan (firstDay : Nat) (extra : ℚ)
  | subsAudit (total : ℚ)
  | topCatRule (cat : String)
  | monthlyReview
  deriving Repr, DecidableEq

/-- Python's seen-set deduplication preserving first occurrences. -/
def pyDedup {α : Type} [DecidableEq α] (seen : List α) : List α → List α
  | [] => []
  | a :: rest => if a ∈ seen then pyDedup seen rest else a :: pyDedup (a :: seen) rest

/-- `recommend_actions_for_next_month` (actions.py): exactly one
savings-tier action, the four conditional actions, a single filler when
fewer than three actions were produced, then dedup-preserving-order and
truncation to 5. -/
def recommend_actions_for_next_month (stats : Stats) (categories : List CatEntry)
    (patterns : PatternsOut) : List ActionMsg :=
  let a1 : ActionMsg :=
    if stats.savings_rate < 1/10 then .savingsAuto
    else if stats.savings_rate < 1/4 then .savingsRaise
    else .savingsProtect
  let acts2 := [a1] ++
    (if 0 < patterns.high_fees.total then
      [.feeReview patterns.high_fees.count patterns.high_fees.total] else [])
  let acts3 := acts2 ++
    (match patterns.impulse_spikes.days with
     | [] => []
     | d :: _ =>
       if 0 < patterns.impulse_spikes.extra_spend then
         [.spikePlan d patterns.impulse_spikes.extra_spend] else [])
  let acts4 := acts3 ++
    (if 0 < patterns.subscriptions.total then
      [.subsAudit patterns.subscriptions.total] else [])
  let acts5 := acts4 ++
    (match categories with
     | [] => []
     | c :: _ => if c.category ≠ "" then [.topCatRule c.category] else [])
  let acts6 := if acts5.length < 3 then acts5 ++ [.monthlyReview] else acts5
  (pyDedup [] acts6).take 5

/-- C2: on the pipeline state of a month holding a single uncategorized
expense of 100 (description "misc": savings rate 0, no fees, no spike
days, no subscriptions, empty breakdown) the recommender returns exactly
two actions — the low-savings action plus one filler — although the code
comments "Guarantee at least 3 actions" and the claim requires at least
three. -/
theorem c2_recommender_returns_two_actions :
    recommend_actions_for_next_month
        (compute_basic_stats uncategorizedExpenseDf.rows)
        (compute_category_breakdown uncategorizedExpenseDf)
        (detect_patterns uncategorizedExpenseDf.rows) =
      [.savingsAuto, .monthlyReview] ∧
    (recommend_actions_for_next_month
        (compute_basic_stats uncategorizedExpenseDf.rows)
        (compute_category_breakdown uncategorizedExpenseDf)
        (detect_patterns uncategorizedExpenseDf.rows)).length = 2 := by
  have hstats : compute_basic_stats uncategorizedExpenseDf.rows =
      { total_income := 0, total_expense := 100, net := -100, savings_rate := 0 } := by
    norm_num [compute_basic_stats, uncategorizedExpenseDf, incomeSum, expenseSum,
      round2, round3, round_eq, Stats.mk.injEq]
  have hcats : compute_category_breakdown uncategorizedExpenseDf = [] := by
    norm_num [compute_category_breakdown, breakdownRawEntries, uncategorizedExpenseDf,
      expenseRows, catKeys]
  have himp : impulse_spikes uncategorizedExpenseDf.rows =
      { days := [], extra_spend := 0 } := by
    have hdates : expenseDates (expenseOnly uncategorizedExpenseDf.rows) = [1] := by
      norm_num [expenseOnly, expenseDates, uncategorizedExpenseDf,
        List.insertionSort, List.orderedInsert]
    have hday : daySum (expenseOnly uncategorizedExpenseDf.rows) 1 = 100 := by
      norm_num [daySum, expenseOnly, uncategorizedExpenseDf]
    have hmed : medianQ (dailyTotals (expenseOnly uncategorizedExpenseDf.rows)) = 100 := by
      rw [dailyTotals, hdates]
      norm_num [hday, medianQ, List.insertionSort, List.orderedInsert]
    rw [impulse_spikes]
    rw [if_neg (by norm_num [expenseOnly, uncategorizedExpenseDf])]
    rw [if_pos (by rw [hmed]; norm_num)]
    rw [hdates, hmed]
    norm_num [List.filter, hday]
  have hfees : uncategorizedExpenseDf.rows.filter feesMask = [] := by decide
  have hsubs : uncategorizedExpenseDf.rows.filter subsMask = [] := by decide
  have hflag : cashflow_flag uncategorizedExpenseDf.rows = "critical" := by
    simp only [cashflow_flag, hstats]
    norm_num
  have hpat : detect_patterns uncategorizedExpenseDf.rows =
      { high_fees := { count := 0, total := 0 }
        impulse_spikes := { days := [], extra_spend := 0 }
        subscriptions := { count := 0, total := 0 }
        cashflow_flag := "critical" } := by
    rw [detect_patterns, himp, hfees, hsubs, hflag]
    norm_num [round2, round_eq, PatternsOut.mk.injEq, CountTotal.mk.injEq,
      SpikesOut.mk.injEq]
  rw [hstats, hcats, hpat]
  norm_num [recommend_actions_for_next_month, pyDedup]
  all_goals decide

/-! ### Trend comparator (`compute_category_trends`, analyzer.py)

The source computes the baseline by first grouping on (period, category)
and then summing those group sums per category; summing a regrouping of
the same rows equals summing the rows directly, so the embedding sums the
baseline rows per category in one pass before dividing by the number of
distinct baseline periods. -/

/-- The current-period expense rows (`cur` in the source). -/
def curRows (rows : List Txn) (p : String) : List Txn :=
  (expenseOnly rows).filter (fun t => t.period == p)

/-- The baseline expense rows: every other period (`base` in the source). -/
def baseRows (rows : List Txn) (p : String) : List Txn :=
  (expenseOnly rows).filter (fun t => t.period != p)

/-- `cur_by_cat.get(cat, 0.0)`: current-period spend of a category. -/
def curSpend (rows : List Txn) (p : String) (c : String) : ℚ :=
  catSum (curRows rows p) c

/-- `base["period"].nunique()`: distinct baseline periods present. -/
def baseMonths (rows : List Txn) (p : String) : Nat :=
  (((baseRows rows p).map (fun t => t.period)).dedup).length

/-- Total baseline spend of a category across all non-current periods. -/
def baseTotal (rows : List Txn) (p : String) (c : String) : ℚ :=
  catSum (baseRows rows p) c

/-- `baseline_by_cat.get(cat, 0.0)`: average per-period baseline spend. -/
def baselineSpend (rows : List Txn) (p : String) (c : String) : ℚ :=
  baseTotal rows p c / (baseMonths rows p : ℚ)

/-- The categories of either side (`set(cur_by_cat.index) |
set(baseline_by_cat.index)`; null categories were dropped by the
groupbys). -/
def trendCats (rows : List Txn) (p : String) : List String :=
  (((curRows rows p).filterMap (fun t => t.category)) ++
    ((baseRows rows p).filterMap (fun t => t.category))).dedup

/-- One row of the trend result. -/
structure TrendRow where
  category : String
  current : ℚ
  baseline : ℚ
  delta : ℚ
  delta_pct : Option ℚ
  deriving Repr, DecidableEq

/-- The trend rows before rounding and sorting. -/
def trendRowsRaw (rows : List Txn) (p : String) : List TrendRow :=
  if curRows rows p = [] ∨ baseRows rows p = [] then []
  else if baseMonths rows p = 0 then []
  else (trendCats rows p).map (fun c =>
    { category := c
      current := curSpend rows p c
      baseline := baselineSpend rows p c
      delta := curSpend rows p c - baselineSpend rows p c
      delta_pct :=
        if 0 < baselineSpend rows p c then
          some ((curSpend rows p c - baselineSpend rows p c) / baselineSpend rows p c)
        else none })

/-- The rounding applied when each result dict is built. -/
def roundTrendRow (r : TrendRow) : TrendRow :=
  { r with current := round2 r.current, baseline := round2 r.baseline,
           delta := round2 r.delta, delta_pct := r.delta_pct.map round3 }

/-- The sort key (`abs(delta_pct)`, with null counting as 0.0). -/
def trendSortKey (r : TrendRow) : ℚ :=
  match r.delta_pct with
  | none => 0
  | some q => |q|

/-- `compute_category_trends` (analyzer.py): rounded trend rows sorted by
descending absolute percentage change. -/
def compute_category_trends (rows : List Txn) (p : String) : List TrendRow :=
  ((trendRowsRaw rows p).map roundTrendRow).insertionSort
    (fun a b => trendSortKey b ≤ trendSortKey a)

/-- C5: the trend result is empty when the current period or the baseline
has no expense rows; every raw trend row reports the current-period spend
of its category, the per-period baseline average, their exact difference
as `delta`, and `delta_pct = delta/baseline` exactly when the baseline is
positive and null otherwise — so a category absent from the current
period with positive baseline reports `delta = −baseline` and
`delta_pct = −1`; the returned list is the rounding of the raw rows,
reordered by descending absolute percentage change. -/
theorem c5_category_trends_rows (rows : List Txn) (p : String) :
    (curRows rows p = [] ∨ baseRows rows p = [] →
      compute_category_trends rows p = []) ∧
    (∀ r ∈ trendRowsRaw rows p,
      r.current = curSpend rows p r.category ∧
      r.baseline = baselineSpend rows p r.category ∧
      r.delta = r.current - r.baseline ∧
      (0 < r.baseline → r.delta_pct = some (r.delta / r.baseline)) ∧
      (¬ 0 < r.baseline → r.delta_pct = none) ∧
      (r.current = 0 → 0 < r.baseline →
        r.delta = -r.baseline ∧ r.delta_pct = some (-1))) ∧
    (∀ r, r ∈ compute_category_trends rows p ↔
      r ∈ (trendRowsRaw rows p).map roundTrendRow) := by
  refine ⟨?_, ?_, ?_⟩
  · intro hEmpty
    have : trendRowsRaw rows p = [] := by
      rw [trendRowsRaw, if_pos hEmpty]
    simp [compute_category_trends, this]
  · intro r hr
    rw [trendRowsRaw] at hr
    by_cases hEmpty : curRows rows p = [] ∨ baseRows rows p = []
    · rw [if_pos hEmpty] at hr
      exact absurd hr (List.not_mem_nil r)
    · rw [if_neg hEmpty] at hr
      by_cases hbm : baseMonths rows p = 0
      · rw [if_pos hbm] at hr
        exact absurd hr (List.not_mem_nil r)
      · rw [if_neg hbm] at hr
        rcases List.mem_map.mp hr with ⟨c, _, hEq⟩
        subst hEq
        refine ⟨rfl, rfl, rfl, fun hb => ?_, fun hb => ?_, fun hcur hb => ?_⟩
        · simp only [if_pos hb]
        · simp only [if_neg hb]
        · simp only at hcur hb ⊢
          constructor
          · rw [hcur]; ring
          · rw [if_pos hb, hcur]
            have hbne : baselineSpend rows p c ≠ 0 := ne_of_gt hb
            congr 1
            field_simp
  · intro r
    exact (List.perm_insertionSort
      (fun a b => trendSortKey b ≤ trendSortKey a) _).mem_iff

/-- Three-transaction history: January has Food 30 and Rent 40, February
(the current period) has Food 10 — Rent appears only in the baseline. -/
def trendHistoryRows : List Txn :=
  [{ date := 10, period := "2025-01", amount := 30, is_income := false,
     category := some "Food", description := "a", source := none, account_name := none },
   { date := 11, period := "2025-01", amount := 40, is_income := false,
     category := some "Rent", description := "b", source := none, account_name := none },
   { date := 40, period := "2025-02", amount := 10, is_income := false,
     category := some "Food", description := "c", source := none, account_name := none }]

/-- Witness for C5: in the concrete history the Rent row (present only in
the baseline, baseline 40) reports `delta = −40` and `delta_pct = −1`. -/
theorem c5_category_trends_rows_witness :
    ∃ r ∈ trendRowsRaw trendHistoryRows "2025-02",
      r.category = "Rent" ∧ r.delta = -r.baseline ∧ r.baseline = 40 ∧
        r.delta_pct = some (-1) := by
  have hbase : baselineSpend trendHistoryRows "2025-02" "Rent" = 40 := by
    simp [baselineSpend, baseTotal, baseMonths, baseRows, expenseOnly,
      catSum, trendHistoryRows, List.dedup_cons_of_not_mem, List.dedup_cons_of_mem]
  have hcur : curSpend trendHistoryRows "2025-02" "Rent" = 0 := by
    simp [curSpend, curRows, expenseOnly, catSum, trendHistoryRows]
  have hmem : { category := "Rent"
                current := curSpend trendHistoryRows "2025-02" "Rent"
                baseline := baselineSpend trendHistoryRows "2025-02" "Rent"
                delta := curSpend trendHistoryRows "2025-02" "Rent" -
                  baselineSpend trendHistoryRows "2025-02" "Rent"
                delta_pct :=
                  if 0 < baselineSpend trendHistoryRows "2025-02" "Rent" then
                    some ((curSpend trendHistoryRows "2025-02" "Rent" -
                      baselineSpend trendHistoryRows "2025-02" "Rent") /
                        baselineSpend trendHistoryRows "2025-02" "Rent")
                  else none : TrendRow } ∈ trendRowsRaw trendHistoryRows "2025-02" := by
    rw [trendRowsRaw]
    rw [if_neg (by simp [curRows, baseRows, expenseOnly, trendHistoryRows])]
    rw [if_neg (by simp [baseMonths, baseRows, expenseOnly, trendHistoryRows,
      List.dedup_cons_of_not_mem, List.dedup_cons_of_mem])]
    apply List.mem_map.mpr
    refine ⟨"Rent", ?_, rfl⟩
    simp [trendCats, curRows, baseRows, expenseOnly, trendHistoryRows,
      List.dedup_cons_of_not_mem, List.dedup_cons_of_mem]
  refine ⟨_, hmem, rfl, ?_⟩
  obtain ⟨-, -, hdelta, -, -, honly⟩ :=
    ((c5_category_trends_rows trendHistoryRows "2025-02").2.1 _ hmem)
  have h0 : curSpend trendHistoryRows "2025-02" "Rent" = 0 := hcur
  obtain ⟨hd, hp⟩ := honly (by simpa using h0) (by rw [hbase] at *; norm_num [hbase])
  exact ⟨hd, by simpa using hbase, hp⟩

/-! ### Behaviour profiler label assignment (`build_behaviour_profiles`, analyzer.py)

The clustering step itself (StandardScaler + seeded k-means over floats)
is not shallowly embeddable; the claims under study are properties of the
label-assignment stage for *whatever* clustering came out, so we quantify
over an arbitrary assignment of a cluster id to each monthly feature row,
keeping the one fact the source guarantees: k-means is run with
`k = min(3, number of periods)`, so at most three distinct cluster ids
occur. -/

/-- One row of `monthly_df` after clustering: the per-period features and
the k-means cluster id. -/
structure PeriodFeatureRow where
  period : String
  cluster : Nat
  savings_rate : ℚ
  total_expense : ℚ
  subs_share : ℚ
  shopping_share : ℚ
  deriving Repr, DecidableEq

/-- One entry of `cluster_info`: a cluster id with its feature means. -/
structure ClusterInfo where
  cluster : Nat
  mean_savings : ℚ
  mean_expense : ℚ
  mean_subs_share : ℚ
  mean_shop_share : ℚ
  deriving Repr, DecidableEq

/-- The distinct cluster ids, ascending — the group keys of
`monthly_df.groupby("cluster")`. -/
def clusterIds (rows : List PeriodFeatureRow) : List Nat :=
  ((rows.map (fun r => r.cluster)).dedup).insertionSort (· ≤ ·)

/-- The mean of feature `f` over the rows of cluster `cid`. -/
def clusterMeanBy (rows : List PeriodFeatureRow) (f : PeriodFeatureRow → ℚ)
    (cid : Nat) : ℚ :=
  ((rows.filter (fun r => r.cluster == cid)).map f).sum /
    ((rows.filter (fun r => r.cluster == cid)).length : ℚ)

/-- `cluster_info` (analyzer.py): per-cluster feature means. -/
def cluster_info (rows : List PeriodFeatureRow) : List ClusterInfo :=
  (clusterIds rows).map (fun cid =>
    { cluster := cid
      mean_savings := clusterMeanBy rows (fun r => r.savings_rate) cid
      mean_expense := clusterMeanBy rows (fun r => r.total_expense) cid
      mean_subs_share := clusterMeanBy rows (fun r => r.subs_share) cid
      mean_shop_share := clusterMeanBy rows (fun r => r.shopping_share) cid })

/-- Python's `max(l, key=key)`: the first element attaining the maximal
key (`none` on the empty list, where Python would raise; the source only
reaches it on nonempty lists). -/
def pyMaxBy (key : ClusterInfo → ℚ) : List ClusterInfo → Option ClusterInfo
  | [] => none
  | c :: rest =>
    match pyMaxBy key rest with
    | none => some c
    | some b => if key c < key b then some b else some c

/-- The greedy, priority-ordered, without-replacement assignment of
persona labels to clusters (`cluster_labels` in the source): highest mean
savings rate → "Super Saver"; of the remaining, highest mean subscription
share → "Subscription Heavy"; of the remaining, highest mean shopping
share → "Lifestyle Spender"; anything still remaining → "Balanced". -/
def clusterLabels (info : List ClusterInfo) : List (Nat × String) :=
  match pyMaxBy (fun c => c.mean_savings) info with
  | none => []
  | some saver =>
    let rem1 := info.filter (fun c => c.cluster != saver.cluster)
    match pyMaxBy (fun c => c.mean_subs_share) rem1 with
    | none => [(saver.cluster, "Super Saver")]
    | some subsCl =>
      let rem2 := rem1.filter (fun c => c.cluster != subsCl.cluster)
      match pyMaxBy (fun c => c.mean_shop_share) rem2 with
      | none => [(saver.cluster, "Super Saver"), (subsCl.cluster, "Subscription Heavy")]
      | some shopCl =>
        [(saver.cluster, "Super Saver"), (subsCl.cluster, "Subscription Heavy"),
         (shopCl.cluster, "Lifestyle Spender")] ++
          (rem2.filter (fun c => c.cluster != shopCl.cluster)).map
            (fun c => (c.cluster, "Balanced"))

/-- `cluster_labels.get(c, "Balanced")`. -/
def labelLookup (labels : List (Nat × String)) (cid : Nat) : String :=
  match labels.find? (fun q => q.1 == cid) with
  | some q => q.2
  | none => "Balanced"

/-- `labels_by_period`: each period mapped to its cluster's label. -/
def labels_by_period (rows : List PeriodFeatureRow) : List (String × String) :=
  rows.map (fun r =>
    (r.period, labelLookup (clusterLabels (cluster_info rows)) r.cluster))

theorem pyMaxBy_eq_none (key : ClusterInfo → ℚ) (l : List ClusterInfo) :
    pyMaxBy key l = none ↔ l = [] := by
  cases l with
  | nil => simp [pyMaxBy]
  | cons c rest =>
    simp only [pyMaxBy]
    cases h : pyMaxBy key rest with
    | none => simp
    | some b =>
      by_cases hk : key c < key b <;> simp [hk]

theorem pyMaxBy_mem (key : ClusterInfo → ℚ) (l : List ClusterInfo)
    (c : ClusterInfo) (h : pyMaxBy key l = some c) : c ∈ l := by
  induction l with
  | nil => simp [pyMaxBy] at h
  | cons a rest ih =>
    rw [pyMaxBy] at h
    cases hr : pyMaxBy key rest with
    | none =>
      rw [hr] at h
      simp only [Option.some.injEq] at h
      exact h ▸ List.mem_cons_self a rest
    | some b =>
      rw [hr] at h
      dsimp only at h
      by_cases hk : key a < key b
      · rw [if_pos hk] at h
        simp only [Option.some.injEq] at h
        exact List.mem_cons_of_mem a (ih (h ▸ hr))
      · rw [if_neg hk] at h
        simp only [Option.some.injEq] at h
        exact h ▸ List.mem_cons_self a rest

theorem perm_cons_filter_ne (info : List ClusterInfo) (s : ClusterInfo)
    (hnd : (info.map (fun c => c.cluster)).Nodup) (hs : s ∈ info) :
    info.Perm (s :: info.filter (fun c => c.cluster != s.cluster)) := by
  induction info with
  | nil => cases hs
  | cons a l ih =>
    rw [List.map_cons, List.nodup_cons] at hnd
    obtain ⟨ha, hl⟩ := hnd
    rcases List.mem_cons.mp hs with rfl | hsl
    · have hfl : l.filter (fun c => c.cluster != s.cluster) = l := by
        apply List.filter_eq_self.mpr
        intro c hc
        rw [bne_iff_ne]
        intro hEq
        exact ha (hEq ▸ List.mem_map_of_mem _ hc)
      have hstep : (s :: l).filter (fun c => c.cluster != s.cluster) = l := by
        rw [List.filter_cons]
        simp [hfl]
      rw [hstep]
    · have hne : a.cluster ≠ s.cluster := by
        intro hEq
        exact ha (hEq ▸ List.mem_map_of_mem _ hsl)
      have hstep : (a :: l).filter (fun c => c.cluster != s.cluster) =
          a :: l.filter (fun c => c.cluster != s.cluster) := by
        rw [List.filter_cons]
        simp [bne_iff_ne, hne]
      rw [hstep]
      exact ((ih hl hsl).cons a).trans (List.Perm.swap s a _)

theorem nodup_ids_filter (info : List ClusterInfo) (p : ClusterInfo → Bool)
    (hnd : (info.map (fun c => c.cluster)).Nodup) :
    ((info.filter p).map (fun c => c.cluster)).Nodup :=
  List.Nodup.sublist ((List.filter_sublist info).map _) hnd

/-- The core of C4 and C10: for any cluster summary list with distinct
ids and at most three entries, the greedy assignment labels every cluster
exactly once (the labelled ids are a permutation of the cluster ids),
never repeats a persona label, and only ever uses the first three persona
labels — "Balanced" is unreachable with at most three clusters. -/
theorem clusterLabels_spec (info : List ClusterInfo)
    (hnd : (info.map (fun c => c.cluster)).Nodup) (hne : info ≠ [])
    (hlen : info.length ≤ 3) :
    ((clusterLabels info).map Prod.fst).Perm (info.map (fun c => c.cluster)) ∧
    ((clusterLabels info).map Prod.snd).Nodup ∧
    ∀ q ∈ clusterLabels info, q.2 = "Super Saver" ∨ q.2 = "Subscription Heavy" ∨
      q.2 = "Lifestyle Spender" := by
  cases hsv : pyMaxBy (fun c => c.mean_savings) info with
  | none => exact absurd ((pyMaxBy_eq_none _ _).mp hsv) hne
  | some saver =>
    have hsmem := pyMaxBy_mem _ _ _ hsv
    have hperm1 := perm_cons_filter_ne info saver hnd hsmem
    have hnd1 := nodup_ids_filter info (fun c => c.cluster != saver.cluster) hnd
    cases hsub : pyMaxBy (fun c => c.mean_subs_share)
        (info.filter (fun c => c.cluster != saver.cluster)) with
    | none =>
      have hrem1nil : info.filter (fun c => c.cluster != saver.cluster) = [] :=
        (pyMaxBy_eq_none _ _).mp hsub
      have hlabels : clusterLabels info = [(saver.cluster, "Super Saver")] := by
        simp only [clusterLabels, hsv, hsub]
      rw [hlabels]
      refine ⟨?_, by simp, by simp⟩
      have : info.Perm [saver] := by
        rw [hrem1nil] at hperm1
        exact hperm1
      exact (this.map (fun c => c.cluster)).symm
    | some subsCl =>
      have husmem := pyMaxBy_mem _ _ _ hsub
      have hperm2 := perm_cons_filter_ne _ subsCl hnd1 husmem
      have hnd2 := nodup_ids_filter _ (fun c => c.cluster != subsCl.cluster) hnd1
      cases hshop : pyMaxBy (fun c => c.mean_shop_share)
          ((info.filter (fun c => c.cluster != saver.cluster)).filter
            (fun c => c.cluster != subsCl.cluster)) with
      | none =>
        have hrem2nil : (info.filter (fun c => c.cluster != saver.cluster)).filter
            (fun c => c.cluster != subsCl.cluster) = [] :=
          (pyMaxBy_eq_none _ _).mp hshop
        have hlabels : clusterLabels info =
            [(saver.cluster, "Super Saver"), (subsCl.cluster, "Subscription Heavy")] := by
          simp only [clusterLabels, hsv, hsub, hshop]
        rw [hlabels]
        refine ⟨?_, by simp, by simp⟩
        have h2 : (info.filter (fun c => c.cluster != saver.cluster)).Perm [subsCl] := by
          rw [hrem2nil] at hperm2
          exact hperm2
        have : info.Perm [saver, subsCl] := hperm1.trans (h2.cons saver)
        exact (this.map (fun c => c.cluster)).symm
      | some shopCl =>
        have hshmem := pyMaxBy_mem _ _ _ hshop
        have hperm3 := perm_cons_filter_ne _ shopCl hnd2 hshmem
        have hinfo : info.Perm (saver :: subsCl :: shopCl ::
            ((info.filter (fun c => c.cluster != saver.cluster)).filter
              (fun c => c.cluster != subsCl.cluster)).filter
                (fun c => c.cluster != shopCl.cluster)) :=
          hperm1.trans ((hperm2.trans (hperm3.cons subsCl)).cons saver)
        have hrem3nil : ((info.filter (fun c => c.cluster != saver.cluster)).filter
            (fun c => c.cluster != subsCl.cluster)).filter
              (fun c => c.cluster != shopCl.cluster) = [] := by
          have hlen3 := hinfo.length_eq
          simp only [List.length_cons] at hlen3
          have : info.length = 3 + (((info.filter (fun c => c.cluster != saver.cluster)).filter
              (fun c => c.cluster != subsCl.cluster)).filter
                (fun c => c.cluster != shopCl.cluster)).length := by omega
          have hzero : (((info.filter (fun c => c.cluster != saver.cluster)).filter
              (fun c => c.cluster != subsCl.cluster)).filter
                (fun c => c.cluster != shopCl.cluster)).length = 0 := by omega
          exact List.length_eq_zero.mp hzero
        have hlabels : clusterLabels info =
            [(saver.cluster, "Super Saver"), (subsCl.cluster, "Subscription Heavy"),
             (shopCl.cluster, "Lifestyle Spender")] := by
          simp only [clusterLabels, hsv, hsub, hshop, hrem3nil]
          simp
        rw [hlabels]
        refine ⟨?_, by simp, by simp⟩
        rw [hrem3nil] at hinfo
        exact (hinfo.map (fun c => c.cluster)).symm

theorem cluster_info_ids (rows : List PeriodFeatureRow) :
    (cluster_info rows).map (fun c => c.cluster) = clusterIds rows := by
  rw [cluster_info, List.map_map]
  exact List.map_id _

theorem clusterIds_nodup (rows : List PeriodFeatureRow) : (clusterIds rows).Nodup :=
  ((List.perm_insertionSort _ _).nodup_iff).mpr (List.nodup_dedup _)

theorem clusterIds_ne_nil (rows : List PeriodFeatureRow) (hne : rows ≠ []) :
    clusterIds rows ≠ [] := by
  intro h
  apply hne
  have hperm := List.perm_insertionSort (· ≤ ·) ((rows.map (fun r => r.cluster)).dedup)
  rw [clusterIds] at h
  rw [h] at hperm
  have hd : (rows.map (fun r => r.cluster)).dedup = [] := hperm.symm.eq_nil
  have hm : rows.map (fun r => r.cluster) = [] := by
    rw [← List.dedup_eq_nil]
    exact hd
  exact List.map_eq_nil_iff.mp hm

/-- C4: whenever the clustering path runs (so at most `min(3, number of
periods)` ≤ 3 distinct cluster ids exist), the greedy priority-ordered
assignment gives every cluster exactly one label — the labelled cluster
ids are a permutation of the cluster ids — and never gives the same
persona label to two different clusters. -/
theorem c4_greedy_label_assignment (rows : List PeriodFeatureRow)
    (hne : rows ≠ []) (hk : (clusterIds rows).length ≤ 3) :
    ((clusterLabels (cluster_info rows)).map Prod.fst).Perm (clusterIds rows) ∧
    ((clusterLabels (cluster_info rows)).map Prod.snd).Nodup := by
  have hids := cluster_info_ids rows
  have hnd : ((cluster_info rows).map (fun c => c.cluster)).Nodup := by
    rw [hids]
    exact clusterIds_nodup rows
  have hlen : (cluster_info rows).length ≤ 3 := by
    rw [cluster_info, List.length_map]
    rw [clusterIds] at hk
    exact hk
  have hne' : cluster_info rows ≠ [] := by
    intro h
    apply clusterIds_ne_nil rows hne
    rw [← hids, h]
    rfl
  obtain ⟨hperm, hnodup, -⟩ := clusterLabels_spec _ hnd hne' hlen
  rw [hids] at hperm
  exact ⟨hperm, hnodup⟩

/-- Two periods falling into two clusters: January (cluster 0) saves
half its income, February (cluster 1) spends half on subscriptions. -/
def profileRows : List PeriodFeatureRow :=
  [{ period := "2025-01", cluster := 0, savings_rate := 1/2, total_expense := 100,
     subs_share := 0, shopping_share := 0 },
   { period := "2025-02", cluster := 1, savings_rate := 0, total_expense := 200,
     subs_share := 1/2, shopping_share := 0 }]

/-- Witness for C4 at the concrete two-cluster input. -/
theorem c4_greedy_label_assignment_witness :
    ((clusterLabels (cluster_info profileRows)).map Prod.fst).Perm
      (clusterIds profileRows) ∧
    ((clusterLabels (cluster_info profileRows)).map Prod.snd).Nodup :=
  c4_greedy_label_assignment profileRows (by simp [profileRows]) (by decide)

/-- C10: whenever the clustering path runs with at most three distinct
cluster ids (the source's `k = min(3, number of periods)`), every
period's assigned label is one of "Super Saver", "Subscription Heavy" or
"Lifestyle Spender" — the priority selectors exhaust all clusters, so
"Balanced" is never assigned through the clustering path. -/
theorem c10_clustering_path_labels (rows : List PeriodFeatureRow)
    (hne : rows ≠ []) (hk : (clusterIds rows).length ≤ 3) :
    ∀ q ∈ labels_by_period rows,
      q.2 = "Super Saver" ∨ q.2 = "Subscription Heavy" ∨
        q.2 = "Lifestyle Spender" := by
  have hids := cluster_info_ids rows
  have hnd : ((cluster_info rows).map (fun c => c.cluster)).Nodup := by
    rw [hids]
    exact clusterIds_nodup rows
  have hlen : (cluster_info rows).length ≤ 3 := by
    rw [cluster_info, List.length_map]
    rw [clusterIds] at hk
    exact hk
  have hne' : cluster_info rows ≠ [] := by
    intro h
    apply clusterIds_ne_nil rows hne
    rw [← hids, h]
    rfl
  obtain ⟨hperm, -, h3⟩ := clusterLabels_spec _ hnd hne' hlen
  rw [hids] at hperm
  intro q hq
  rcases List.mem_map.mp hq with ⟨r, hr, rfl⟩
  dsimp only
  have hcid : r.cluster ∈ clusterIds rows := by
    rw [clusterIds]
    exact (List.perm_insertionSort _ _).mem_iff.mpr
      (List.mem_dedup.mpr (List.mem_map_of_mem _ hr))
  have hkey : r.cluster ∈ (clusterLabels (cluster_info rows)).map Prod.fst :=
    hperm.mem_iff.mpr hcid
  rcases List.mem_map.mp hkey with ⟨q0, hq0, hq0id⟩
  cases hf : (clusterLabels (cluster_info rows)).find? (fun x => x.1 == r.cluster) with
  | none =>
    exfalso
    apply List.find?_eq_none.mp hf q0 hq0
    simp [hq0id]
  | some qf =>
    have hqf := List.mem_of_find?_eq_some hf
    have hlook : labelLookup (clusterLabels (cluster_info rows)) r.cluster = qf.2 := by
      simp [labelLookup, hf]
    rw [hlook]
    exact h3 qf hqf

/-- Witness for C10 at the concrete two-cluster input: January's label is
one of the three clustering personas. -/
theorem c10_clustering_path_labels_witness :
    ("2025-01", labelLookup (clusterLabels (cluster_info profileRows)) 0).2 =
        "Super Saver" ∨
    ("2025-01", labelLookup (clusterLabels (cluster_info profileRows)) 0).2 =
        "Subscription Heavy" ∨
    ("2025-01", labelLookup (clusterLabels (cluster_info profileRows)) 0).2 =
        "Lifestyle Spender" :=
  c10_clustering_path_labels profileRows (by simp [profileRows]) (by decide)
    ("2025-01", labelLookup (clusterLabels (cluster_info profileRows)) 0)
    (by simp [labels_by_period, profileRows])

end FinCopilot
